import Mathlib

/-!
Verification of the command-queue and playback-state-synchronization layer
of `bevy_kira_audio` (files `src/audio_output.rs` and `src/channel.rs`).

The Rust code is shallowly embedded: hash maps become association lists,
the `VecDeque` of commands becomes a `List` whose head is the *front*
(the end `push_front` adds to) and whose last element is the *back*
(the end `pop_back` removes from), `f32`/`f64` values become `Rat`
(only assignment and comparison are performed on them), and the kira
backend (an external collaborator) is abstracted: a freshly played sound
is a handle in the `playing` state carrying the settings it was started
with, and the per-call outcome of `StaticSoundHandle::stop` is supplied
by an oracle.
-/

namespace BevyKira

/-- Modelled from the spec: the opaque globally-unique instance handle
(`InstanceHandle` in the missing `audio.rs`); equality is by identifier. -/
structure InstanceHandle where
  id : Nat
deriving DecidableEq, Repr

/-- Modelled from the spec: the externally visible instance state
(`PlaybackState` in the missing `audio.rs`). -/
inductive PlaybackState
  | queued
  | playing
  | paused
  | stopped
deriving DecidableEq, Repr

/-- The playback state reported by the kira backend for a live handle. -/
inductive KiraPlaybackState
  | playing
  | paused
  | stopped
deriving DecidableEq, Repr

/-- Asset reference (`Handle<AudioSource>`), identified by its id. -/
structure AssetHandle where
  id : Nat
deriving DecidableEq, Repr

/-- kira `StaticSoundSettings`: the fields this layer reads or writes. -/
structure StaticSoundSettings where
  volume : Rat
  playbackRate : Rat
  panning : Rat
  loopBehavior : Option Rat
deriving DecidableEq, Repr

/-- kira `StaticSoundData` (decoded sound plus its settings). -/
structure StaticSoundData where
  settings : StaticSoundSettings
deriving DecidableEq, Repr

/-- `AudioSource` (missing `source.rs`): wraps the decoded sound data. -/
structure AudioSource where
  sound : StaticSoundData
deriving DecidableEq, Repr

/-- Modelled from the spec: `PlayAudioSettings` of the missing `audio.rs`
(source, optional intro source, looped flag), as used by `audio_output.rs`. -/
structure PlayAudioSettings where
  source : AssetHandle
  introSource : Option AssetHandle
  looped : Bool
deriving DecidableEq, Repr

/-- Modelled from the spec: `PlayAudioCommandArgs` of the missing `audio.rs`. -/
structure PlayAudioCommandArgs where
  settings : PlayAudioSettings
  instanceHandle : InstanceHandle
deriving DecidableEq, Repr

/-- Modelled from the spec: the `AudioCommand` sum type of the missing
`audio.rs`, with the variants dispatched on in `run_audio_command`. -/
inductive AudioCommand
  | play (args : PlayAudioCommandArgs)
  | stop
  | pause
  | resume
  | setVolume (volume : Rat)
  | setPanning (panning : Rat)
  | setPlaybackRate (playbackRate : Rat)
deriving DecidableEq, Repr

/-- Modelled from the spec: the executor result (`AudioCommandResult`). -/
inductive AudioCommandResult
  | ok
  | retry
deriving DecidableEq, Repr

/-- Channel identity (`Channel` in `channel.rs`): typed (the `TypeId` is
modelled as a `Nat`) or dynamic (keyed by name). -/
inductive Channel
  | typed (id : Nat)
  | dynamic (key : String)
deriving DecidableEq, Repr

/-! ### Association-list model of `HashMap` -/

/-- `HashMap` lookup: the value stored under `k`, if any. -/
def alookup {κ β : Type} [DecidableEq κ] (k : κ) : List (κ × β) → Option β
  | [] => none
  | (k', v) :: rest => if k' = k then some v else alookup k rest

/-- `HashMap::insert`: replace the entry for `k`, or add one. -/
def ainsert {κ β : Type} [DecidableEq κ] (k : κ) (v : β) : List (κ × β) → List (κ × β)
  | [] => [(k, v)]
  | (k', v') :: rest => if k' = k then (k, v) :: rest else (k', v') :: ainsert k v rest

/-- `HashMap::remove`: drop the entry for `k`, if present. -/
def aremove {κ β : Type} [DecidableEq κ] (k : κ) : List (κ × β) → List (κ × β)
  | [] => []
  | (k', v) :: rest => if k' = k then rest else (k', v) :: aremove k rest

/-! ### The drain loop of `play_channel` / `play_dynamic_channels`

The command queue is a `List AudioCommand` whose head is the front
(`push_front` prepends) and whose last element is the back (`pop_back`
removes it).  `drain exec n q s` is the loop body of
`AudioOutput::play_channel` (audio_output.rs:197-205) run for `n`
iterations over queue `q` with executor state `s`; it additionally
returns the trace of executed commands, in execution order. -/

def drain {σ : Type} (exec : σ → AudioCommand → σ × AudioCommandResult) :
    Nat → List AudioCommand → σ → List AudioCommand × σ × List AudioCommand
  | 0, q, s => (q, s, [])
  | n + 1, q, s =>
    match q.getLast? with
    | none => (q, s, [])
    | some c =>
      let q' := q.dropLast
      let p := exec s c
      match p.2 with
      | .retry =>
        let r := drain exec n (c :: q') p.1
        (r.1, r.2.1, c :: r.2.2)
      | .ok =>
        let r := drain exec n q' p.1
        (r.1, r.2.1, c :: r.2.2)

/-- Run the executor over a list of commands (oldest first), threading the
state; returns each command paired with its result, and the final state. -/
def execAll {σ : Type} (exec : σ → AudioCommand → σ × AudioCommandResult) :
    List AudioCommand → σ → List (AudioCommand × AudioCommandResult) × σ
  | [], s => ([], s)
  | c :: cs, s =>
    let p := exec s c
    let r := execAll exec cs p.1
    ((c, p.2) :: r.1, r.2)

lemma execAll_concat {σ : Type} (exec : σ → AudioCommand → σ × AudioCommandResult)
    (c : AudioCommand) (cs : List AudioCommand) (s : σ) :
    execAll exec (c :: cs) s =
      (((c, (exec s c).2) :: (execAll exec cs (exec s c).1).1),
        (execAll exec cs (exec s c).1).2) := by
  simp [execAll]

/-- The drain loop, characterised: draining `R ++ P` for `P.length`
iterations executes exactly `P.reverse` (oldest first), leaves the retried
commands stacked in front of the untouched prefix `R`, and threads the
state exactly as sequential execution does. -/
lemma drain_append {σ : Type} (exec : σ → AudioCommand → σ × AudioCommandResult)
    (P : List AudioCommand) :
    ∀ (R : List AudioCommand) (s : σ),
      drain exec P.length (R ++ P) s =
        ((((execAll exec P.reverse s).1.filter (fun p => p.2 = .retry)).map
            Prod.fst).reverse ++ R,
          (execAll exec P.reverse s).2,
          ((execAll exec P.reverse s).1.map Prod.fst)) := by
  induction P using List.reverseRecOn with
  | nil =>
      intro R s
      simp [drain, execAll]
  | append_singleton P' c ih =>
      intro R s
      have hlast : (R ++ (P' ++ [c])).getLast? = some c := by
        rw [← List.append_assoc]
        exact List.getLast?_concat _
      have hdrop : (R ++ (P' ++ [c])).dropLast = R ++ P' := by
        rw [← List.append_assoc]
        exact List.dropLast_concat
      have hrev : (P' ++ [c]).reverse = c :: P'.reverse := by
        simp
      rw [List.length_append, List.length_singleton]
      show drain exec (P'.length + 1) (R ++ (P' ++ [c])) s = _
      rw [drain, hlast]
      simp only [hdrop, hrev, execAll_concat]
      rcases hres : (exec s c).2 with _ | _
      · -- executed with result `ok`: the command is dropped
        simp only [hres]
        have := ih R (exec s c).1
        simp only [this]
        simp [List.filter, hres]
      · -- executed with result `retry`: the command is pushed to the front
        simp only [hres]
        have := ih (c :: R) (exec s c).1
        have hassoc : c :: (R ++ P') = (c :: R) ++ P' := by simp
        simp only [hassoc, this]
        simp [List.filter, hres]

lemma execAll_map_fst {σ : Type} (exec : σ → AudioCommand → σ × AudioCommandResult) :
    ∀ (l : List AudioCommand) (s : σ), (execAll exec l s).1.map Prod.fst = l := by
  intro l
  induction l with
  | nil => intro s; simp [execAll]
  | cons c cs ih => intro s; simp [execAll, ih]

/-! ### The front-end channel structures (`channel.rs`) -/

/-- `DynamicAudioChannel`: command queue plus published state map. -/
structure DynamicAudioChannel where
  commands : List AudioCommand
  states : List (InstanceHandle × PlaybackState)
deriving DecidableEq, Repr

/-- `AudioChannel<T>` has the same `commands`/`states` shape as
`DynamicAudioChannel` and the engine treats both identically. -/
abbrev AudioChannel := DynamicAudioChannel

/-- `DynamicAudioChannel::default()`: fresh empty queue and state map. -/
def DynamicAudioChannel.default : DynamicAudioChannel := ⟨[], []⟩

/-- The predicate of the `find` in `DynamicAudioChannel::state`
(channel.rs:337-343): a `Play` command bearing a handle with the same id. -/
def isPlayWithId (instanceHandle : InstanceHandle) : AudioCommand → Bool
  | .play args => args.instanceHandle.id == instanceHandle.id
  | _ => false

/-- `DynamicAudioChannel::state` (channel.rs:329-347). -/
def DynamicAudioChannel.state (ch : DynamicAudioChannel)
    (instanceHandle : InstanceHandle) : PlaybackState :=
  match alookup instanceHandle ch.states with
  | some s => s
  | none =>
    match ch.commands.find? (isPlayWithId instanceHandle) with
    | some _ => .queued
    | none => .stopped

/-- `DynamicAudioChannels`: the dynamic channel registry. -/
structure DynamicAudioChannels where
  channels : List (String × DynamicAudioChannel)
deriving DecidableEq, Repr

/-- `DynamicAudioChannels::create_channel` (channel.rs:356-363). -/
def DynamicAudioChannels.create_channel (m : DynamicAudioChannels) (key : String) :
    DynamicAudioChannels :=
  ⟨ainsert key DynamicAudioChannel.default m.channels⟩

/-- `DynamicAudioChannels::channel` (channel.rs:365-375); `none` models the
fatal assertion failure on a missing key. -/
def DynamicAudioChannels.channel (m : DynamicAudioChannels) (key : String) :
    Option DynamicAudioChannel :=
  alookup key m.channels

/-- `DynamicAudioChannels::remove_channel` (channel.rs:377-381):
`self.channel(&key).stop()` (fatal if the key is absent, modelled as
`none`) pushes a `Stop` command into the channel's queue, then the entry
is removed from the map. -/
def DynamicAudioChannels.remove_channel (m : DynamicAudioChannels) (key : String) :
    Option DynamicAudioChannels :=
  match m.channel key with
  | none => none
  | some ch =>
    let afterStop : DynamicAudioChannel := { ch with commands := AudioCommand.stop :: ch.commands }
    some ⟨aremove key (ainsert key afterStop m.channels)⟩

/-! ### The execution engine (`audio_output.rs`) -/

/-- Model of kira's `StaticSoundHandle`: the backend-reported state plus
the last values this layer sent to the backend for the live instance. -/
structure StaticSoundHandle where
  state : KiraPlaybackState
  volume : Rat
  playbackRate : Rat
  panning : Rat
deriving DecidableEq, Repr

/-- `InstanceState` (audio_output.rs:26-29). -/
structure InstanceState where
  kira : StaticSoundHandle
  handle : InstanceHandle
deriving DecidableEq, Repr

/-- Outcome of one backend `stop` call. -/
inductive StopCallResult
  | ok
  | commandQueueFull
  | otherError
deriving DecidableEq, Repr

/-- Backend oracle: the outcome of a `stop` call on a given instance. -/
abbrev StopOracle := InstanceHandle → StopCallResult

/-- `ChannelState` (audio_output.rs:285-289). -/
structure ChannelState where
  volume : Rat
  playbackRate : Rat
  panning : Rat
deriving DecidableEq, Repr

/-- `Default for ChannelState` (audio_output.rs:291-299). -/
def ChannelState.default : ChannelState :=
  { volume := 1, playbackRate := 1, panning := 1/2 }

/-- `ChannelState::apply` (audio_output.rs:301-307). -/
def ChannelState.apply (cs : ChannelState) (sound : StaticSoundData) : StaticSoundData :=
  { sound with settings := { sound.settings with
      volume := cs.volume, playbackRate := cs.playbackRate, panning := cs.panning } }

/-- `AudioOutput` (audio_output.rs:20-24); `managerPresent` models whether
backend construction succeeded (`manager: Option<AudioManager>`). -/
structure AudioOutput where
  managerPresent : Bool
  instances : List (Channel × List InstanceState)
  channels : List (Channel × ChannelState)
deriving DecidableEq, Repr

/-- The asset store (`Assets<AudioSource>` lookup). -/
abbrev AssetStore := AssetHandle → Option AudioSource

/-- kira backend `AudioManager::play`: starts the sound, yielding a live
handle in the `playing` state carrying the settings it was started with. -/
def managerPlay (sound : StaticSoundData) : StaticSoundHandle :=
  { state := .playing, volume := sound.settings.volume,
    playbackRate := sound.settings.playbackRate, panning := sound.settings.panning }

/-- The loop of `AudioOutput::stop` (audio_output.rs:48-64) over a
channel's live instances: issue `stop` to each in list order, returning
`Retry` immediately at the first `CommandQueueFull`; other errors are
logged and skipped.  Also returns the trace of issued stop calls with
their outcomes, in call order. -/
def stopInstances (oracle : StopOracle) :
    List InstanceState → AudioCommandResult × List (InstanceHandle × StopCallResult)
  | [] => (.ok, [])
  | i :: rest =>
    match oracle i.handle with
    | .commandQueueFull => (.retry, [(i.handle, .commandQueueFull)])
    | r =>
      let t := stopInstances oracle rest
      (t.1, (i.handle, r) :: t.2)

/-- `AudioOutput::stop` (audio_output.rs:48-64). -/
def AudioOutput.stop (o : AudioOutput) (oracle : StopOracle) (channel : Channel) :
    AudioCommandResult × List (InstanceHandle × StopCallResult) :=
  match alookup channel o.instances with
  | some insts => stopInstances oracle insts
  | none => (.ok, [])

/-- `AudioOutput::pause` (audio_output.rs:66-76): pause every instance
whose backend-reported state is exactly `playing` (the backend transition
is modelled as immediate). -/
def AudioOutput.pause (o : AudioOutput) (channel : Channel) : AudioOutput :=
  { o with instances := match alookup channel o.instances with
      | some insts => ainsert channel (insts.map fun i =>
          if i.kira.state = .playing then { i with kira := { i.kira with state := .paused } }
          else i) o.instances
      | none => o.instances }

/-- `AudioOutput::resume` (audio_output.rs:78-88): resume every instance
whose backend-reported state is exactly `paused`. -/
def AudioOutput.resume (o : AudioOutput) (channel : Channel) : AudioOutput :=
  { o with instances := match alookup channel o.instances with
      | some insts => ainsert channel (insts.map fun i =>
          if i.kira.state = .paused then { i with kira := { i.kira with state := .playing } }
          else i) o.instances
      | none => o.instances }

/-- `AudioOutput::set_volume` (audio_output.rs:90-107). -/
def AudioOutput.set_volume (o : AudioOutput) (channel : Channel) (volume : Rat) : AudioOutput :=
  let instances := match alookup channel o.instances with
    | some insts => ainsert channel (insts.map fun i =>
        { i with kira := { i.kira with volume := volume } }) o.instances
    | none => o.instances
  let channels := match alookup channel o.channels with
    | some cs => ainsert channel { cs with volume := volume } o.channels
    | none => ainsert channel { ChannelState.default with volume := volume } o.channels
  { o with instances := instances, channels := channels }

/-- `AudioOutput::set_panning` (audio_output.rs:109-126). -/
def AudioOutput.set_panning (o : AudioOutput) (channel : Channel) (panning : Rat) : AudioOutput :=
  let instances := match alookup channel o.instances with
    | some insts => ainsert channel (insts.map fun i =>
        { i with kira := { i.kira with panning := panning } }) o.instances
    | none => o.instances
  let channels := match alookup channel o.channels with
    | some cs => ainsert channel { cs with panning := panning } o.channels
    | none => ainsert channel { ChannelState.default with panning := panning } o.channels
  { o with instances := instances, channels := channels }

/-- `AudioOutput::set_playback_rate` (audio_output.rs:128-148). -/
def AudioOutput.set_playback_rate (o : AudioOutput) (channel : Channel) (playbackRate : Rat) :
    AudioOutput :=
  let instances := match alookup channel o.instances with
    | some insts => ainsert channel (insts.map fun i =>
        { i with kira := { i.kira with playbackRate := playbackRate } }) o.instances
    | none => o.instances
  let channels := match alookup channel o.channels with
    | some cs => ainsert channel { cs with playbackRate := playbackRate } o.channels
    | none => ainsert channel { ChannelState.default with playbackRate := playbackRate } o.channels
  { o with instances := instances, channels := channels }

/-- The sound configuration built by `AudioOutput::play`
(audio_output.rs:157-165): clone the source's sound, apply the stored
channel settings if any, and force loop-start-at-zero when `looped` was
requested and the sound has no explicit loop behavior. -/
def preparedSound (o : AudioOutput) (channel : Channel) (playSettings : PlayAudioSettings)
    (audioSource : AudioSource) : StaticSoundData :=
  let sound := audioSource.sound
  let sound := match alookup channel o.channels with
    | some channelState => channelState.apply sound
    | none => sound
  if playSettings.looped = true ∧ sound.settings.loopBehavior = none then
    { sound with settings := { sound.settings with loopBehavior := some 0 } }
  else sound

/-- `AudioOutput::play` (audio_output.rs:150-183): submit the prepared
sound to the backend and record the live instance; always `Ok`. -/
def AudioOutput.play (o : AudioOutput) (channel : Channel) (playSettings : PlayAudioSettings)
    (audioSource : AudioSource) (instanceHandle : InstanceHandle) :
    AudioOutput × AudioCommandResult :=
  let instanceState : InstanceState :=
    { kira := managerPlay (preparedSound o channel playSettings audioSource)
      handle := instanceHandle }
  let instances := match alookup channel o.instances with
    | some instanceStates => ainsert channel (instanceStates ++ [instanceState]) o.instances
    | none => ainsert channel [instanceState] o.instances
  ({ o with instances := instances }, .ok)

/-- `AudioOutput::run_audio_command` (audio_output.rs:232-274). -/
def AudioOutput.run_audio_command (o : AudioOutput) (oracle : StopOracle)
    (audioCommand : AudioCommand) (audioSources : AssetStore) (channel : Channel) :
    AudioOutput × AudioCommandResult :=
  match audioCommand with
  | .play playArgs =>
    match audioSources playArgs.settings.source with
    | some audioSource => o.play channel playArgs.settings audioSource playArgs.instanceHandle
    | none => (o, .retry)
  | .stop => (o, (o.stop oracle channel).1)
  | .pause => (o.pause channel, .ok)
  | .resume => (o.resume channel, .ok)
  | .setVolume volume => (o.set_volume channel volume, .ok)
  | .setPanning panning => (o.set_panning channel panning, .ok)
  | .setPlaybackRate playbackRate => (o.set_playback_rate channel playbackRate, .ok)

/-- `AudioOutput::play_channel` (audio_output.rs:185-206): no-op when the
backend failed to construct; otherwise drain the typed channel's queue. -/
def AudioOutput.play_channel (o : AudioOutput) (oracle : StopOracle)
    (audioSources : AssetStore) (channelId : Nat) (ch : AudioChannel) :
    AudioOutput × AudioChannel :=
  if o.managerPresent then
    let channel := Channel.typed channelId
    let r := drain (fun oo c => oo.run_audio_command oracle c audioSources channel)
      ch.commands.length ch.commands o
    (r.2.1, { ch with commands := r.1 })
  else (o, ch)

/-- `AudioOutput::play_dynamic_channels` (audio_output.rs:208-230): no-op
when the backend failed to construct; otherwise drain every dynamic
channel's queue in registry order. -/
def AudioOutput.play_dynamic_channels (o : AudioOutput) (oracle : StopOracle)
    (audioSources : AssetStore) (channels : DynamicAudioChannels) :
    AudioOutput × DynamicAudioChannels :=
  if o.managerPresent then
    let r := channels.channels.foldl (fun acc kc =>
      let channel := Channel.dynamic kc.1
      let d := drain (fun oo c => oo.run_audio_command oracle c audioSources channel)
        kc.2.commands.length kc.2.commands acc.1
      (d.2.1, acc.2 ++ [(kc.1, { kc.2 with commands := d.1 })]))
      (o, ([] : List (String × DynamicAudioChannel)))
    (r.1, ⟨r.2⟩)
  else (o, channels)

/-- `AudioOutput::cleanup_stopped_instances` (audio_output.rs:276-282). -/
def AudioOutput.cleanup_stopped_instances (o : AudioOutput) : AudioOutput :=
  { o with instances := o.instances.map fun ci =>
      (ci.1, ci.2.filter fun i => i.kira.state ≠ .stopped) }

/-- Modelled from the spec: the `From<&InstanceState> for PlaybackState`
conversion of the missing `audio.rs`, mapping the backend-reported state
of a live instance to the published state. -/
def InstanceState.playbackState (i : InstanceState) : PlaybackState :=
  match i.kira.state with
  | .playing => .playing
  | .paused => .paused
  | .stopped => .stopped

/-- `update_instance_states` (audio_output.rs:333-348): when the engine
tracks a record list for the typed channel, clear the channel's state
map and repopulate it from the current live instance records. -/
def update_instance_states (o : AudioOutput) (channelId : Nat) (ch : AudioChannel) :
    AudioChannel :=
  match alookup (Channel.typed channelId) o.instances with
  | some insts =>
    { ch with states := insts.foldl (fun m i => ainsert i.handle i.playbackState m) [] }
  | none => ch

/-- Modelled from the spec: the republish step for dynamic channels
(spec section 4.5 step 3, not present under `src/`): clear the channel's
externally-visible state map and repopulate it from the current live
instance records for that channel. -/
def update_dynamic_instance_states (o : AudioOutput) (key : String)
    (ch : DynamicAudioChannel) : DynamicAudioChannel :=
  let insts := (alookup (Channel.dynamic key) o.instances).getD []
  { ch with states := insts.foldl (fun m i => ainsert i.handle i.playbackState m) [] }

/-- One tick for a single typed channel, per the spec's per-tick cycle
(drain, prune stopped instances, republish states). -/
def tick (oracle : StopOracle) (audioSources : AssetStore) (channelId : Nat)
    (p : AudioOutput × AudioChannel) : AudioOutput × AudioChannel :=
  let r := p.1.play_channel oracle audioSources channelId p.2
  let o := r.1.cleanup_stopped_instances
  (o, update_instance_states o channelId r.2)

/-- `n` consecutive ticks for a single typed channel. -/
def tickN (oracle : StopOracle) (audioSources : AssetStore) (channelId : Nat) :
    Nat → AudioOutput × AudioChannel → AudioOutput × AudioChannel
  | 0, p => p
  | n + 1, p => tickN oracle audioSources channelId n (tick oracle audioSources channelId p)

/-! ### Helper lemmas about the association-list map -/

lemma alookup_ainsert_self {κ β : Type} [DecidableEq κ] (k : κ) (v : β) :
    ∀ m : List (κ × β), alookup k (ainsert k v m) = some v := by
  intro m
  induction m with
  | nil => simp [ainsert, alookup]
  | cons kv rest ih =>
      by_cases hk : kv.1 = k
      · simp [ainsert, alookup, hk]
      · simp [ainsert, alookup, hk, ih]

lemma alookup_ainsert_ne {κ β : Type} [DecidableEq κ] {k j : κ} (v : β)
    (hne : k ≠ j) : ∀ m : List (κ × β), alookup j (ainsert k v m) = alookup j m := by
  intro m
  induction m with
  | nil => simp [ainsert, alookup, hne]
  | cons kv rest ih =>
      by_cases hk : kv.1 = k
      · simp [ainsert, alookup, hk, hne]
      · simp [ainsert, alookup, hk, ih]

lemma ainsert_of_lookup_none {κ β : Type} [DecidableEq κ] {k : κ} (v : β) :
    ∀ {m : List (κ × β)}, alookup k m = none → ainsert k v m = m ++ [(k, v)] := by
  intro m
  induction m with
  | nil => intro _; simp [ainsert]
  | cons kv rest ih =>
      intro hl
      by_cases hk : kv.1 = k
      · simp [alookup, hk] at hl
      · simp [alookup, hk] at hl
        simp [ainsert, hk, ih hl]

lemma alookup_append_of_none {κ β : Type} [DecidableEq κ] {k : κ} {a : List (κ × β)}
    (b : List (κ × β)) (ha : alookup k a = none) :
    alookup k (a ++ b) = alookup k b := by
  induction a with
  | nil => simp
  | cons kv rest ih =>
      by_cases hk : kv.1 = k
      · simp [alookup, hk] at ha
      · simp [alookup, hk] at ha ⊢
        exact ih ha

lemma aremove_ainsert_self {κ β : Type} [DecidableEq κ] (k : κ) (v : β) :
    ∀ m : List (κ × β), aremove k (ainsert k v m) = aremove k m := by
  intro m
  induction m with
  | nil => simp [ainsert, aremove]
  | cons kv rest ih =>
      by_cases hk : kv.1 = k
      · simp [ainsert, aremove, hk]
      · simp [ainsert, aremove, hk, ih]

lemma alookup_eq_none_of_not_mem {κ β : Type} [DecidableEq κ] {k : κ} :
    ∀ {m : List (κ × β)}, k ∉ m.map Prod.fst → alookup k m = none := by
  intro m
  induction m with
  | nil => intro _; simp [alookup]
  | cons kv rest ih =>
      intro hmem
      simp only [List.map_cons, List.mem_cons] at hmem
      push_neg at hmem
      have hk : kv.1 ≠ k := fun hkk => hmem.1 hkk.symm
      simp only [alookup, if_neg hk]
      exact ih hmem.2

lemma alookup_aremove_self_of_nodup {κ β : Type} [DecidableEq κ] (k : κ) :
    ∀ m : List (κ × β), (m.map Prod.fst).Nodup → alookup k (aremove k m) = none := by
  intro m
  induction m with
  | nil => intro _; simp [aremove, alookup]
  | cons kv rest ih =>
      intro hnd
      simp only [List.map_cons, List.nodup_cons] at hnd
      by_cases hk : kv.1 = k
      · -- the removed entry was the only one with this key
        simp only [aremove, if_pos hk]
        exact alookup_eq_none_of_not_mem (hk ▸ hnd.1)
      · simp only [aremove, if_neg hk, alookup, if_neg hk]
        exact ih hnd.2

lemma alookup_aremove_ne {κ β : Type} [DecidableEq κ] {k j : κ} (hne : k ≠ j) :
    ∀ m : List (κ × β), alookup j (aremove k m) = alookup j m := by
  intro m
  induction m with
  | nil => simp [aremove]
  | cons kv rest ih =>
      by_cases hk : kv.1 = k
      · have hj : kv.1 ≠ j := by rw [hk]; exact hne
        simp [aremove, alookup, hk, hj, hne]
      · simp [aremove, alookup, hk, ih]

/-! ### C1 — the drain protocol -/

/-- **C1.** Draining a channel queue in one tick pops exactly
`n = q.length` commands from the back, executes them oldest-first (the
execution trace is `q.reverse`), pushes a command back onto the front of
the queue exactly when its execution reports `Retry`, and afterwards the
queue holds exactly the retried commands in their original relative
submission order (back of the queue = oldest); only the `n` commands
present when the drain began are executed in the tick. -/
theorem drain_executes_snapshot_and_requeues_retries_in_order
    {σ : Type} (exec : σ → AudioCommand → σ × AudioCommandResult)
    (q : List AudioCommand) (s : σ) :
    drain exec q.length q s =
      ((((execAll exec q.reverse s).1.filter (fun p => p.2 = .retry)).map Prod.fst).reverse,
        (execAll exec q.reverse s).2,
        q.reverse) := by
  have h := drain_append exec q [] s
  simpa [execAll_map_fst] using h

/-! ### C2 — state query semantics -/

/-- **C2.** `DynamicAudioChannel::state`: if the handle has a published
live-instance state it is returned; otherwise `Queued` exactly when some
`Play` command in the channel's queue carries a handle with the same id;
otherwise `Stopped`. -/
theorem state_query_prefers_published_then_queued_then_stopped
    (ch : DynamicAudioChannel) (h : InstanceHandle) :
    (∀ s, alookup h ch.states = some s → ch.state h = s) ∧
    (alookup h ch.states = none →
      ((∃ args, AudioCommand.play args ∈ ch.commands ∧ args.instanceHandle.id = h.id) →
        ch.state h = .queued) ∧
      ((¬ ∃ args, AudioCommand.play args ∈ ch.commands ∧ args.instanceHandle.id = h.id) →
        ch.state h = .stopped)) := by
  constructor
  · intro s hs
    simp [DynamicAudioChannel.state, hs]
  · intro hn
    constructor
    · rintro ⟨args, hmem, hid⟩
      have hfind : ch.commands.find? (isPlayWithId h) ≠ none := by
        intro hnone
        rw [List.find?_eq_none] at hnone
        exact absurd (by simp [isPlayWithId, hid]) (hnone _ hmem)
      rcases hsome : ch.commands.find? (isPlayWithId h) with _ | c
      · exact absurd hsome hfind
      · simp [DynamicAudioChannel.state, hn, hsome]
    · intro hno
      have hfind : ch.commands.find? (isPlayWithId h) = none := by
        rw [List.find?_eq_none]
        intro c hmem hc
        rcases c with args | _ | _ | _ | v | p | r
        · simp [isPlayWithId] at hc
          exact hno ⟨args, hmem, hc⟩
        all_goals simp [isPlayWithId] at hc
      simp [DynamicAudioChannel.state, hn, hfind]

/-- Witness for C2 at a concrete channel: a published state wins. -/
theorem state_query_semantics_witness :
    DynamicAudioChannel.state
      { commands := [], states := [(⟨5⟩, PlaybackState.playing)] } ⟨5⟩ =
      PlaybackState.playing :=
  (state_query_prefers_published_then_queued_then_stopped
    { commands := [], states := [(⟨5⟩, PlaybackState.playing)] } ⟨5⟩).1
    PlaybackState.playing (by decide)

/-! ### C3 — republishing instance states -/

lemma foldl_ainsert_states (l : List InstanceState) :
    ∀ acc : List (InstanceHandle × PlaybackState),
      (l.map InstanceState.handle).Nodup →
      (∀ i ∈ l, alookup i.handle acc = none) →
      l.foldl (fun m i => ainsert i.handle i.playbackState m) acc =
        acc ++ l.map (fun i => (i.handle, i.playbackState)) := by
  induction l with
  | nil => intro acc _ _; simp
  | cons i rest ih =>
      intro acc hnd hacc
      simp only [List.map_cons, List.nodup_cons] at hnd
      have h1 : ainsert i.handle i.playbackState acc = acc ++ [(i.handle, i.playbackState)] :=
        ainsert_of_lookup_none _ (hacc i (by simp))
      simp only [List.foldl_cons, h1]
      rw [ih (acc ++ [(i.handle, i.playbackState)]) hnd.2 ?_]
      · simp
      · intro j hj
        rw [alookup_append_of_none _ (hacc j (by simp [hj]))]
        have hne : i.handle ≠ j.handle := by
          intro he
          exact hnd.1 (he ▸ List.mem_map_of_mem InstanceState.handle hj)
        simp [alookup, hne]

/-- **C3.** After the tick's execution phase, republishing clears a
channel's externally-visible state map and repopulates it so that it
holds exactly one entry per current live instance record of the channel
(handle mapped to the instance's current state) and nothing else — for a
typed channel whenever the engine tracks a record list for it
(`update_instance_states`), and for a dynamic channel through the
spec-modelled republish step. -/
theorem republish_states_exactly_live_instances
    (o : AudioOutput) (channelId : Nat) (key : String) (tch dch : DynamicAudioChannel) :
    (∀ insts, alookup (Channel.typed channelId) o.instances = some insts →
      (insts.map InstanceState.handle).Nodup →
      (update_instance_states o channelId tch).states =
        insts.map (fun i => (i.handle, i.playbackState))) ∧
    (∀ insts, (alookup (Channel.dynamic key) o.instances).getD [] = insts →
      (insts.map InstanceState.handle).Nodup →
      (update_dynamic_instance_states o key dch).states =
        insts.map (fun i => (i.handle, i.playbackState))) := by
  constructor
  · intro insts hl hnd
    simp only [update_instance_states, hl]
    rw [foldl_ainsert_states insts [] hnd (by intro i _; simp [alookup])]
    simp
  · intro insts hl hnd
    simp only [update_dynamic_instance_states, hl]
    rw [foldl_ainsert_states insts [] hnd (by intro i _; simp [alookup])]
    simp

/-- Witness for C3: one live record on typed channel 0 republishes to
exactly one state entry. -/
theorem republish_states_witness :
    (update_instance_states
      { managerPresent := true
        instances := [(Channel.typed 0,
          [{ kira := { state := .playing, volume := 1, playbackRate := 1, panning := 1/2 }
             handle := ⟨1⟩ }])]
        channels := [] } 0 DynamicAudioChannel.default).states =
      [(⟨1⟩, PlaybackState.playing)] :=
  (republish_states_exactly_live_instances
    { managerPresent := true
      instances := [(Channel.typed 0,
        [{ kira := { state := .playing, volume := 1, playbackRate := 1, panning := 1/2 }
           handle := ⟨1⟩ }])]
      channels := [] } 0 "" DynamicAudioChannel.default DynamicAudioChannel.default).1
    [{ kira := { state := .playing, volume := 1, playbackRate := 1, panning := 1/2 }
       handle := ⟨1⟩ }] rfl (by decide)

/-! ### C4 — degraded no-op mode after backend construction failure -/

lemma state_of_lookup_none_queued (ch : DynamicAudioChannel) (h : InstanceHandle)
    (hn : alookup h ch.states = none)
    (hex : ∃ args, AudioCommand.play args ∈ ch.commands ∧ args.instanceHandle.id = h.id) :
    ch.state h = .queued := by
  obtain ⟨args, hmem, hid⟩ := hex
  have hfind : ch.commands.find? (isPlayWithId h) ≠ none := by
    intro hnone
    rw [List.find?_eq_none] at hnone
    exact absurd (by simp [isPlayWithId, hid]) (hnone _ hmem)
  rcases hsome : ch.commands.find? (isPlayWithId h) with _ | c
  · exact absurd hsome hfind
  · simp [DynamicAudioChannel.state, hn, hsome]

lemma state_of_lookup_none_stopped (ch : DynamicAudioChannel) (h : InstanceHandle)
    (hn : alookup h ch.states = none)
    (hno : ¬ ∃ args, AudioCommand.play args ∈ ch.commands ∧ args.instanceHandle.id = h.id) :
    ch.state h = .stopped := by
  have hfind : ch.commands.find? (isPlayWithId h) = none := by
    rw [List.find?_eq_none]
    intro c hmem hc
    rcases c with args | _ | _ | _ | v | p | r
    · simp [isPlayWithId] at hc
      exact hno ⟨args, hmem, hc⟩
    all_goals simp [isPlayWithId] at hc
  simp [DynamicAudioChannel.state, hn, hfind]

/-- **C4 counterexample.** With a failed backend, an enqueued `Play`
command is left in the queue and its handle's state query returns
`Queued`, not the default/`Stopped` state the claim asserts. -/
theorem no_backend_state_query_counterexample :
    AudioOutput.play_channel ⟨false, [], []⟩ (fun _ => .ok) (fun _ => none) 0
        ⟨[AudioCommand.play ⟨⟨⟨0⟩, none, false⟩, ⟨7⟩⟩], []⟩ =
      (⟨false, [], []⟩, ⟨[AudioCommand.play ⟨⟨⟨0⟩, none, false⟩, ⟨7⟩⟩], []⟩) ∧
    DynamicAudioChannel.state ⟨[AudioCommand.play ⟨⟨⟨0⟩, none, false⟩, ⟨7⟩⟩], []⟩ ⟨7⟩ =
      PlaybackState.queued ∧
    PlaybackState.queued ≠ PlaybackState.stopped := by
  refine ⟨?_, by decide, by decide⟩
  simp [AudioOutput.play_channel]

/-- **C4 (amended).** If backend construction fails, every subsequent
engine operation is a safe no-op: both drain entry points accept the
enqueued commands but return engine and channels unchanged (no command
ever executes, nothing crashes), and — since no live state is ever
published in this mode — a state query returns `Queued` while a `Play`
bearing the handle sits in the queue and `Stopped` otherwise. -/
theorem no_backend_degrades_to_noop
    (o : AudioOutput) (hm : o.managerPresent = false) :
    (∀ oracle audioSources channelId ch,
       o.play_channel oracle audioSources channelId ch = (o, ch)) ∧
    (∀ oracle audioSources channels,
       o.play_dynamic_channels oracle audioSources channels = (o, channels)) ∧
    (∀ ch : DynamicAudioChannel, ch.states = [] → ∀ h : InstanceHandle,
       ((∃ args, AudioCommand.play args ∈ ch.commands ∧ args.instanceHandle.id = h.id) →
         ch.state h = .queued) ∧
       ((¬ ∃ args, AudioCommand.play args ∈ ch.commands ∧ args.instanceHandle.id = h.id) →
         ch.state h = .stopped)) := by
  refine ⟨?_, ?_, ?_⟩
  · intro oracle audioSources channelId ch
    simp [AudioOutput.play_channel, hm]
  · intro oracle audioSources channels
    simp [AudioOutput.play_dynamic_channels, hm]
  · intro ch hst h
    have hn : alookup h ch.states = none := by simp [hst, alookup]
    exact ⟨state_of_lookup_none_queued ch h hn, state_of_lookup_none_stopped ch h hn⟩

/-- Witness for C4 (amended) at a concrete degraded engine. -/
theorem no_backend_degrades_to_noop_witness :
    AudioOutput.play_channel ⟨false, [], []⟩ (fun _ => .ok) (fun _ => none) 3
        DynamicAudioChannel.default =
      (⟨false, [], []⟩, DynamicAudioChannel.default) :=
  (no_backend_degrades_to_noop ⟨false, [], []⟩ rfl).1 (fun _ => .ok) (fun _ => none) 3
    DynamicAudioChannel.default

/-! ### C5 — recreating a dynamic channel -/

lemma preparedSound_of_settings (o : AudioOutput) (channel : Channel)
    (ps : PlayAudioSettings) (src : AudioSource) (cs : ChannelState)
    (hcs : alookup channel o.channels = some cs) :
    (preparedSound o channel ps src).settings.volume = cs.volume ∧
    (preparedSound o channel ps src).settings.panning = cs.panning ∧
    (preparedSound o channel ps src).settings.playbackRate = cs.playbackRate := by
  simp only [preparedSound, hcs, ChannelState.apply]
  split <;> simp

/-- **C5 counterexample.** Recreating the dynamic channel `"k"` yields a
fresh empty queue, but the channel's stored volume/panning/playback-rate
settings are not discarded: they live in the engine's `AudioOutput`
(keyed by `Channel::Dynamic("k")`), which `create_channel` never touches,
and a sound played on the recreated channel still starts at the old
stored volume `3` rather than the source's volume `1`. -/
theorem create_channel_settings_survive_counterexample :
    (DynamicAudioChannels.create_channel ⟨[("k", ⟨[AudioCommand.stop], []⟩)]⟩ "k").channels =
      [("k", DynamicAudioChannel.default)] ∧
    (managerPlay (preparedSound ⟨true, [], [(Channel.dynamic "k", ⟨3, 1, 0⟩)]⟩
        (Channel.dynamic "k") ⟨⟨0⟩, none, false⟩ ⟨⟨⟨1, 1, 0, none⟩⟩⟩)).volume = 3 ∧
    (3 : Rat) ≠ 1 := by
  refine ⟨by decide, rfl, by norm_num⟩

/-- **C5 (amended).** `create_channel(key)` inserts a fresh empty channel
under the key, overwriting any existing channel so that its previously
queued commands (never executed afterwards) and its published state map
are discarded; other keys are untouched.  The per-channel
volume/panning/playback-rate settings are NOT discarded: they are stored
engine-side and still apply to every sound subsequently played on the
recreated channel. -/
theorem create_channel_overwrites_queue_but_not_settings
    (m : DynamicAudioChannels) (key : String) :
    (m.create_channel key).channel key = some DynamicAudioChannel.default ∧
    (∀ key2, key ≠ key2 → (m.create_channel key).channel key2 = m.channel key2) ∧
    (∀ (o : AudioOutput) (cs : ChannelState) (ps : PlayAudioSettings) (src : AudioSource),
       alookup (Channel.dynamic key) o.channels = some cs →
       (managerPlay (preparedSound o (Channel.dynamic key) ps src)).volume = cs.volume ∧
       (managerPlay (preparedSound o (Channel.dynamic key) ps src)).panning = cs.panning ∧
       (managerPlay (preparedSound o (Channel.dynamic key) ps src)).playbackRate =
         cs.playbackRate) := by
  refine ⟨?_, ?_, ?_⟩
  · simp [DynamicAudioChannels.create_channel, DynamicAudioChannels.channel,
      alookup_ainsert_self]
  · intro key2 hne
    simp [DynamicAudioChannels.create_channel, DynamicAudioChannels.channel,
      alookup_ainsert_ne _ hne]
  · intro o cs ps src hcs
    obtain ⟨h1, h2, h3⟩ := preparedSound_of_settings o (Channel.dynamic key) ps src cs hcs
    exact ⟨by simp [managerPlay, h1], by simp [managerPlay, h2], by simp [managerPlay, h3]⟩

/-- Witness for C5 (amended): recreating `"k"` discards its queue. -/
theorem create_channel_overwrites_witness :
    (DynamicAudioChannels.create_channel ⟨[("k", ⟨[AudioCommand.pause], []⟩)]⟩ "k").channel
      "k" = some DynamicAudioChannel.default :=
  (create_channel_overwrites_queue_but_not_settings
    ⟨[("k", ⟨[AudioCommand.pause], []⟩)]⟩ "k").1

/-! ### C6 — removing a dynamic channel -/

/-- **C6 counterexample.** `remove_channel("k")` deletes the registry
entry (queue and published state map), but the channel's stored
volume/panning/playback-rate settings are not deleted: they live in the
engine's `AudioOutput`, which `remove_channel` never touches, and the
stored record `⟨3, 1, 0⟩` (≠ the default settings) survives there. -/
theorem remove_channel_settings_survive_counterexample :
    DynamicAudioChannels.remove_channel ⟨[("k", DynamicAudioChannel.default)]⟩ "k" =
      some ⟨[]⟩ ∧
    alookup (Channel.dynamic "k")
        ([(Channel.dynamic "k", (⟨3, 1, 0⟩ : ChannelState))] :
          List (Channel × ChannelState)) = some ⟨3, 1, 0⟩ ∧
    (⟨3, 1, 0⟩ : ChannelState) ≠ ChannelState.default := by
  refine ⟨by decide, rfl, ?_⟩
  intro he
  have : (3 : Rat) = 1 := congrArg ChannelState.volume he
  norm_num at this

/-- **C6 (amended).** For an existing key, `remove_channel` pushes a
`Stop` command into the channel's queue and then deletes the registry
entry — the channel's queue (including that `Stop`, which never executes)
and its published state map are gone, so a subsequent `channel(key)` call
fails fatally; calling `channel` or `remove_channel` on a never-created
key likewise fails fatally.  Engine-side settings are not deleted. -/
theorem remove_channel_deletes_entry_and_missing_key_fatal
    (m : DynamicAudioChannels) (key : String) :
    (∀ ch, m.channel key = some ch →
       m.remove_channel key =
         some ⟨aremove key (ainsert key
           { ch with commands := AudioCommand.stop :: ch.commands } m.channels)⟩ ∧
       m.remove_channel key = some ⟨aremove key m.channels⟩ ∧
       ((m.channels.map Prod.fst).Nodup →
         ∀ m2, m.remove_channel key = some m2 → m2.channel key = none)) ∧
    (m.channel key = none → m.remove_channel key = none) := by
  constructor
  · intro ch hch
    have h1 : m.remove_channel key =
        some ⟨aremove key (ainsert key
          { ch with commands := AudioCommand.stop :: ch.commands } m.channels)⟩ := by
      simp [DynamicAudioChannels.remove_channel, hch]
    refine ⟨h1, ?_, ?_⟩
    · rw [h1, aremove_ainsert_self]
    · intro hnd m2 hm2
      rw [h1] at hm2
      cases hm2
      simp only [DynamicAudioChannels.channel, aremove_ainsert_self]
      exact alookup_aremove_self_of_nodup key m.channels hnd
  · intro hch
    simp [DynamicAudioChannels.remove_channel, hch]

/-- Witness for C6 (amended): removing `"k"` makes `channel("k")` fail,
and removing a never-created key fails. -/
theorem remove_channel_witness :
    DynamicAudioChannels.remove_channel ⟨[("k", DynamicAudioChannel.default)]⟩ "k" =
      some ⟨aremove "k" (ainsert "k"
        { DynamicAudioChannel.default with
            commands := AudioCommand.stop :: DynamicAudioChannel.default.commands }
        [("k", DynamicAudioChannel.default)])⟩ ∧
    DynamicAudioChannels.remove_channel ⟨[]⟩ "never" = none :=
  ⟨((remove_channel_deletes_entry_and_missing_key_fatal
      ⟨[("k", DynamicAudioChannel.default)]⟩ "k").1
      DynamicAudioChannel.default (by decide)).1,
    (remove_channel_deletes_entry_and_missing_key_fatal ⟨[]⟩ "never").2 rfl⟩

/-! ### C7 — Play retried across ticks keeps its handle, Queued then Playing -/

lemma alookup_map_snd {κ β γ : Type} [DecidableEq κ] (f : β → γ) (k : κ) :
    ∀ m : List (κ × β), alookup k (m.map fun p => (p.1, f p.2)) = (alookup k m).map f := by
  intro m
  induction m with
  | nil => simp [alookup]
  | cons kv rest ih =>
      by_cases hk : kv.1 = k
      · simp [alookup, hk]
      · simp [alookup, hk, ih]

lemma cleanup_alookup (o : AudioOutput) (c : Channel) :
    alookup c o.cleanup_stopped_instances.instances =
      (alookup c o.instances).map (List.filter fun i => i.kira.state ≠ .stopped) := by
  simp only [AudioOutput.cleanup_stopped_instances]
  exact alookup_map_snd _ c o.instances

lemma drain_singleton_retry {σ : Type} (exec : σ → AudioCommand → σ × AudioCommandResult)
    (c : AudioCommand) (s : σ) (h : (exec s c).2 = .retry) :
    drain exec 1 [c] s = ([c], (exec s c).1, [c]) := by
  simp [drain, h]

lemma drain_singleton_ok {σ : Type} (exec : σ → AudioCommand → σ × AudioCommandResult)
    (c : AudioCommand) (s : σ) (h : (exec s c).2 = .ok) :
    drain exec 1 [c] s = ([], (exec s c).1, [c]) := by
  simp [drain, h]

lemma tick_noasset (oracle : StopOracle) (channelId : Nat) (args : PlayAudioCommandArgs)
    (noAssets : AssetStore) (hna : noAssets args.settings.source = none)
    (p : AudioOutput × AudioChannel)
    (hm : p.1.managerPresent = true) (hq : p.2.commands = [AudioCommand.play args])
    (hi : alookup (Channel.typed channelId) p.1.instances = none) :
    tick oracle noAssets channelId p =
      (p.1.cleanup_stopped_instances,
        { p.2 with commands := [AudioCommand.play args] }) := by
  have hexec : AudioOutput.run_audio_command p.1 oracle (AudioCommand.play args) noAssets
      (Channel.typed channelId) = (p.1, .retry) := by
    simp [AudioOutput.run_audio_command, hna]
  have hdrain := drain_singleton_retry
    (fun oo c => AudioOutput.run_audio_command oo oracle c noAssets (Channel.typed channelId))
    (AudioCommand.play args) p.1 (by simp [hexec])
  have hup : alookup (Channel.typed channelId)
      p.1.cleanup_stopped_instances.instances = none := by
    rw [cleanup_alookup, hi]
    rfl
  simp only [tick, AudioOutput.play_channel, hm, if_true, hq, List.length_singleton, hdrain]
  simp [update_instance_states, hup, hexec]

lemma tick_noasset_inv (oracle : StopOracle) (channelId : Nat) (args : PlayAudioCommandArgs)
    (noAssets : AssetStore) (hna : noAssets args.settings.source = none)
    (p : AudioOutput × AudioChannel)
    (hm : p.1.managerPresent = true) (hq : p.2.commands = [AudioCommand.play args])
    (hs : p.2.states = [])
    (hi : alookup (Channel.typed channelId) p.1.instances = none) :
    (tick oracle noAssets channelId p).1.managerPresent = true ∧
    (tick oracle noAssets channelId p).2.commands = [AudioCommand.play args] ∧
    (tick oracle noAssets channelId p).2.states = [] ∧
    alookup (Channel.typed channelId) (tick oracle noAssets channelId p).1.instances =
      none := by
  rw [tick_noasset oracle channelId args noAssets hna p hm hq hi]
  refine ⟨?_, rfl, ?_, ?_⟩
  · simp [AudioOutput.cleanup_stopped_instances, hm]
  · simp [hs]
  · rw [cleanup_alookup, hi]
    rfl

lemma tickN_noasset_inv (oracle : StopOracle) (channelId : Nat) (args : PlayAudioCommandArgs)
    (noAssets : AssetStore) (hna : noAssets args.settings.source = none) :
    ∀ (N : Nat) (p : AudioOutput × AudioChannel),
      p.1.managerPresent = true → p.2.commands = [AudioCommand.play args] →
      p.2.states = [] → alookup (Channel.typed channelId) p.1.instances = none →
      (tickN oracle noAssets channelId N p).1.managerPresent = true ∧
      (tickN oracle noAssets channelId N p).2.commands = [AudioCommand.play args] ∧
      (tickN oracle noAssets channelId N p).2.states = [] ∧
      alookup (Channel.typed channelId)
        (tickN oracle noAssets channelId N p).1.instances = none := by
  intro N
  induction N with
  | zero => intro p h1 h2 h3 h4; exact ⟨h1, h2, h3, h4⟩
  | succ n ih =>
      intro p h1 h2 h3 h4
      obtain ⟨s1, s2, s3, s4⟩ :=
        tick_noasset_inv oracle channelId args noAssets hna p h1 h2 h3 h4
      simpa [tickN] using ih (tick oracle noAssets channelId p) s1 s2 s3 s4

lemma tick_asset_plays (oracle : StopOracle) (channelId : Nat) (args : PlayAudioCommandArgs)
    (src : AudioSource) (someAssets : AssetStore)
    (hsa : someAssets args.settings.source = some src)
    (p : AudioOutput × AudioChannel)
    (hm : p.1.managerPresent = true) (hq : p.2.commands = [AudioCommand.play args])
    (hi : alookup (Channel.typed channelId) p.1.instances = none) :
    (tick oracle someAssets channelId p).2.commands = [] ∧
    (tick oracle someAssets channelId p).2.states =
      [(args.instanceHandle, PlaybackState.playing)] ∧
    (tick oracle someAssets channelId p).2.state args.instanceHandle =
      PlaybackState.playing := by
  have hexec : AudioOutput.run_audio_command p.1 oracle (AudioCommand.play args) someAssets
      (Channel.typed channelId) =
      ({ p.1 with instances := (ainsert (Channel.typed channelId)
          [⟨managerPlay (preparedSound p.1 (Channel.typed channelId) args.settings src),
            args.instanceHandle⟩] p.1.instances) }, .ok) := by
    simp [AudioOutput.run_audio_command, hsa, AudioOutput.play, hi]
  have hdrain := drain_singleton_ok
    (fun oo c => AudioOutput.run_audio_command oo oracle c someAssets (Channel.typed channelId))
    (AudioCommand.play args) p.1 (by simp [hexec])
  have hch2 : (tick oracle someAssets channelId p).2 =
      { p.2 with
        commands := ([] : List AudioCommand),
        states := [(args.instanceHandle, PlaybackState.playing)] } := by
    simp only [tick, AudioOutput.play_channel, hm, if_true, hq, List.length_singleton,
      hdrain, hexec]
    simp only [update_instance_states]
    rw [cleanup_alookup, alookup_ainsert_self]
    simp [InstanceState.playbackState, managerPlay, ainsert, List.filter]
  refine ⟨by rw [hch2], by rw [hch2], ?_⟩
  rw [hch2]
  simp [DynamicAudioChannel.state, alookup]

/-- **C7.** A `Play` command whose referenced asset is unavailable is
re-enqueued verbatim on every tick, so its instance handle is unchanged
across all `N` retries, the handle's queried state is `Queued` after each
of those ticks, and on the first tick where the asset resolves the
command executes and the queried state becomes `Playing`. -/
theorem play_retry_keeps_handle_queued_then_playing
    (oracle : StopOracle) (channelId : Nat) (args : PlayAudioCommandArgs)
    (o : AudioOutput) (ch : AudioChannel)
    (noAssets someAssets : AssetStore) (src : AudioSource)
    (hm : o.managerPresent = true)
    (hq : ch.commands = [AudioCommand.play args])
    (hs : ch.states = [])
    (hi : alookup (Channel.typed channelId) o.instances = none)
    (hna : noAssets args.settings.source = none)
    (hsa : someAssets args.settings.source = some src) :
    ∀ N : Nat,
      (tickN oracle noAssets channelId N (o, ch)).2.commands =
        [AudioCommand.play args] ∧
      (tickN oracle noAssets channelId N (o, ch)).2.state args.instanceHandle =
        PlaybackState.queued ∧
      (tick oracle someAssets channelId
          (tickN oracle noAssets channelId N (o, ch))).2.state args.instanceHandle =
        PlaybackState.playing := by
  intro N
  obtain ⟨h1, h2, h3, h4⟩ :=
    tickN_noasset_inv oracle channelId args noAssets hna N (o, ch) hm hq hs hi
  refine ⟨h2, ?_, ?_⟩
  · exact state_of_lookup_none_queued _ _ (by simp [h3, alookup])
      ⟨args, by simp [h2], rfl⟩
  · exact (tick_asset_plays oracle channelId args src someAssets hsa _ h1 h2 h4).2.2

/-- Witness for C7 at a concrete engine, channel and asset store, with
two unavailable ticks before the asset resolves. -/
theorem play_retry_witness :
    (tickN (fun _ => .ok) (fun _ => none) 0 2
        (⟨true, [], []⟩, ⟨[AudioCommand.play ⟨⟨⟨0⟩, none, false⟩, ⟨9⟩⟩], []⟩)).2.commands =
      [AudioCommand.play ⟨⟨⟨0⟩, none, false⟩, ⟨9⟩⟩] ∧
    (tickN (fun _ => .ok) (fun _ => none) 0 2
        (⟨true, [], []⟩, ⟨[AudioCommand.play ⟨⟨⟨0⟩, none, false⟩, ⟨9⟩⟩], []⟩)).2.state ⟨9⟩ =
      PlaybackState.queued ∧
    (tick (fun _ => .ok) (fun _ => some ⟨⟨⟨1, 1, 0, none⟩⟩⟩) 0
        (tickN (fun _ => .ok) (fun _ => none) 0 2
          (⟨true, [], []⟩,
            ⟨[AudioCommand.play ⟨⟨⟨0⟩, none, false⟩, ⟨9⟩⟩], []⟩))).2.state ⟨9⟩ =
      PlaybackState.playing :=
  play_retry_keeps_handle_queued_then_playing (fun _ => .ok) 0
    ⟨⟨⟨0⟩, none, false⟩, ⟨9⟩⟩ ⟨true, [], []⟩
    ⟨[AudioCommand.play ⟨⟨⟨0⟩, none, false⟩, ⟨9⟩⟩], []⟩
    (fun _ => none) (fun _ => some ⟨⟨⟨1, 1, 0, none⟩⟩⟩) ⟨⟨⟨1, 1, 0, none⟩⟩⟩
    rfl rfl rfl rfl rfl rfl 2

/-! ### C8 — the setter commands -/

/-- **C8.** Executing `SetVolume(v)` applies `v` to every
currently-tracked live instance on the channel and persists it into the
stored channel settings — creating the record with default values for the
other fields if it was absent, and leaving the other two fields unchanged
if it existed — and the command always completes with `Ok` (never
`Retry`); analogously for `SetPanning` and `SetPlaybackRate`. -/
theorem set_commands_apply_and_persist
    (o : AudioOutput) (channel : Channel) (v : Rat) :
    ((∀ insts, alookup channel o.instances = some insts →
      alookup channel (o.set_volume channel v).instances =
        some (insts.map fun i => { i with kira := { i.kira with volume := v } })) ∧
    (∀ cs, alookup channel o.channels = some cs →
      alookup channel (o.set_volume channel v).channels = some { cs with volume := v }) ∧
    (alookup channel o.channels = none →
      alookup channel (o.set_volume channel v).channels =
        some { ChannelState.default with volume := v }) ∧
    (∀ oracle audioSources,
      (o.run_audio_command oracle (.setVolume v) audioSources channel).2 = .ok)) ∧
    ((∀ insts, alookup channel o.instances = some insts →
      alookup channel (o.set_panning channel v).instances =
        some (insts.map fun i => { i with kira := { i.kira with panning := v } })) ∧
    (∀ cs, alookup channel o.channels = some cs →
      alookup channel (o.set_panning channel v).channels = some { cs with panning := v }) ∧
    (alookup channel o.channels = none →
      alookup channel (o.set_panning channel v).channels =
        some { ChannelState.default with panning := v }) ∧
    (∀ oracle audioSources,
      (o.run_audio_command oracle (.setPanning v) audioSources channel).2 = .ok)) ∧
    ((∀ insts, alookup channel o.instances = some insts →
      alookup channel (o.set_playback_rate channel v).instances =
        some (insts.map fun i => { i with kira := { i.kira with playbackRate := v } })) ∧
    (∀ cs, alookup channel o.channels = some cs →
      alookup channel (o.set_playback_rate channel v).channels =
        some { cs with playbackRate := v }) ∧
    (alookup channel o.channels = none →
      alookup channel (o.set_playback_rate channel v).channels =
        some { ChannelState.default with playbackRate := v }) ∧
    (∀ oracle audioSources,
      (o.run_audio_command oracle (.setPlaybackRate v) audioSources channel).2 = .ok)) := by
  refine ⟨⟨?_, ?_, ?_, ?_⟩, ⟨?_, ?_, ?_, ?_⟩, ⟨?_, ?_, ?_, ?_⟩⟩
  · intro insts hl
    simp [AudioOutput.set_volume, hl, alookup_ainsert_self]
  · intro cs hl
    simp [AudioOutput.set_volume, hl, alookup_ainsert_self]
  · intro hl
    simp [AudioOutput.set_volume, hl, alookup_ainsert_self]
  · intro oracle audioSources
    simp [AudioOutput.run_audio_command]
  · intro insts hl
    simp [AudioOutput.set_panning, hl, alookup_ainsert_self]
  · intro cs hl
    simp [AudioOutput.set_panning, hl, alookup_ainsert_self]
  · intro hl
    simp [AudioOutput.set_panning, hl, alookup_ainsert_self]
  · intro oracle audioSources
    simp [AudioOutput.run_audio_command]
  · intro insts hl
    simp [AudioOutput.set_playback_rate, hl, alookup_ainsert_self]
  · intro cs hl
    simp [AudioOutput.set_playback_rate, hl, alookup_ainsert_self]
  · intro hl
    simp [AudioOutput.set_playback_rate, hl, alookup_ainsert_self]
  · intro oracle audioSources
    simp [AudioOutput.run_audio_command]

/-- Witness for C8: setting volume 3 on a fresh channel creates the
settings record with the other fields at their defaults. -/
theorem set_commands_witness :
    alookup (Channel.typed 0)
        ((⟨true, [], []⟩ : AudioOutput).set_volume (Channel.typed 0) 3).channels =
      some { ChannelState.default with volume := 3 } :=
  (set_commands_apply_and_persist ⟨true, [], []⟩ (Channel.typed 0) 3).1.2.2.1 rfl

/-! ### C9 — Stop is not atomic with respect to retry -/

lemma stopInstances_cons_not_full (oracle : StopOracle) (i : InstanceState)
    (rest : List InstanceState) (h : oracle i.handle ≠ .commandQueueFull) :
    stopInstances oracle (i :: rest) =
      ((stopInstances oracle rest).1,
        (i.handle, oracle i.handle) :: (stopInstances oracle rest).2) := by
  rcases hx : oracle i.handle with _ | _ | _
  · simp [stopInstances, hx]
  · exact absurd hx h
  · simp [stopInstances, hx]

lemma stopInstances_all_ok (oracle : StopOracle) :
    ∀ l : List InstanceState, (∀ i ∈ l, oracle i.handle ≠ .commandQueueFull) →
      stopInstances oracle l = (.ok, l.map fun i => (i.handle, oracle i.handle)) := by
  intro l
  induction l with
  | nil => intro _; simp [stopInstances]
  | cons i rest ih =>
      intro hall
      rw [stopInstances_cons_not_full oracle i rest (hall i (by simp))]
      rw [ih (fun j hj => hall j (by simp [hj]))]
      simp

lemma stopInstances_first_full (oracle : StopOracle) (mid : InstanceState)
    (post : List InstanceState) (hmid : oracle mid.handle = .commandQueueFull) :
    ∀ pre : List InstanceState, (∀ i ∈ pre, oracle i.handle ≠ .commandQueueFull) →
      stopInstances oracle (pre ++ mid :: post) =
        (.retry, pre.map (fun i => (i.handle, oracle i.handle)) ++
          [(mid.handle, .commandQueueFull)]) := by
  intro pre
  induction pre with
  | nil => intro _; simp [stopInstances, hmid]
  | cons i rest ih =>
      intro hpre
      rw [List.cons_append,
        stopInstances_cons_not_full oracle i (rest ++ mid :: post) (hpre i (by simp))]
      rw [ih (fun j hj => hpre j (by simp [hj]))]
      simp

/-- **C9.** `Stop` execution is not atomic with respect to retry: stop is
issued to the channel's live instances in list order and the command
returns `Retry` immediately at the first backend `CommandQueueFull` —
the instances before that point have already been issued their stop and
the ones after it none — and when the identical `Stop` re-executes later
(backend no longer full) stop is issued to every instance on the channel,
the earlier ones a second time. -/
theorem stop_retry_not_atomic
    (pre : List InstanceState) (mid : InstanceState) (post : List InstanceState)
    (oracle oracle2 : StopOracle)
    (hpre : ∀ i ∈ pre, oracle i.handle ≠ .commandQueueFull)
    (hmid : oracle mid.handle = .commandQueueFull)
    (h2 : ∀ i ∈ pre ++ mid :: post, oracle2 i.handle ≠ .commandQueueFull) :
    stopInstances oracle (pre ++ mid :: post) =
      (.retry, pre.map (fun i => (i.handle, oracle i.handle)) ++
        [(mid.handle, .commandQueueFull)]) ∧
    stopInstances oracle2 (pre ++ mid :: post) =
      (.ok, (pre ++ mid :: post).map fun i => (i.handle, oracle2 i.handle)) := by
  exact ⟨stopInstances_first_full oracle mid post hmid pre hpre,
    stopInstances_all_ok oracle2 (pre ++ mid :: post) h2⟩

/-- Witness for C9 with two live instances: the first receives its stop,
the backend queue is full at the second, and on re-execution both receive
stop (the first one again). -/
theorem stop_retry_not_atomic_witness :
    stopInstances (fun h => if h.id = 2 then .commandQueueFull else .ok)
        [⟨⟨.playing, 1, 1, 0⟩, ⟨1⟩⟩, ⟨⟨.playing, 1, 1, 0⟩, ⟨2⟩⟩] =
      (.retry, [(⟨1⟩, .ok), (⟨2⟩, .commandQueueFull)]) ∧
    stopInstances (fun _ => .ok)
        [⟨⟨.playing, 1, 1, 0⟩, ⟨1⟩⟩, ⟨⟨.playing, 1, 1, 0⟩, ⟨2⟩⟩] =
      (.ok, [(⟨1⟩, .ok), (⟨2⟩, .ok)]) :=
  stop_retry_not_atomic [⟨⟨.playing, 1, 1, 0⟩, ⟨1⟩⟩] ⟨⟨.playing, 1, 1, 0⟩, ⟨2⟩⟩ []
    (fun h => if h.id = 2 then .commandQueueFull else .ok) (fun _ => .ok)
    (by decide) (by decide) (by decide)

/-! ### C10 — Play without a settings record keeps the source's values -/

/-- **C10.** If no settings record exists for the channel, executing a
`Play` command leaves the sound's volume, panning and playback rate
exactly as loaded from the audio source (the 1.0/0.5/1.0 channel defaults
are not force-applied; only the loop behavior may be forced); when a
record exists all three fields are overwritten from it; in both cases the
new live instance is appended to the channel's record list carrying
exactly the prepared sound's values. -/
theorem play_without_settings_keeps_source_values
    (o : AudioOutput) (channel : Channel) (ps : PlayAudioSettings)
    (src : AudioSource) (h : InstanceHandle) :
    (alookup channel o.channels = none →
      (preparedSound o channel ps src).settings.volume = src.sound.settings.volume ∧
      (preparedSound o channel ps src).settings.panning = src.sound.settings.panning ∧
      (preparedSound o channel ps src).settings.playbackRate =
        src.sound.settings.playbackRate) ∧
    (∀ cs, alookup channel o.channels = some cs →
      (preparedSound o channel ps src).settings.volume = cs.volume ∧
      (preparedSound o channel ps src).settings.panning = cs.panning ∧
      (preparedSound o channel ps src).settings.playbackRate = cs.playbackRate) ∧
    (∀ insts, alookup channel o.instances = some insts →
      alookup channel ((o.play channel ps src h).1).instances =
        some (insts ++ [⟨managerPlay (preparedSound o channel ps src), h⟩])) ∧
    (alookup channel o.instances = none →
      alookup channel ((o.play channel ps src h).1).instances =
        some [⟨managerPlay (preparedSound o channel ps src), h⟩]) := by
  refine ⟨?_, ?_, ?_, ?_⟩
  · intro hn
    simp only [preparedSound, hn]
    split <;> simp
  · intro cs hcs
    exact preparedSound_of_settings o channel ps src cs hcs
  · intro insts hl
    simp [AudioOutput.play, hl, alookup_ainsert_self]
  · intro hl
    simp [AudioOutput.play, hl, alookup_ainsert_self]

/-- Witness for C10: with no settings record the source's volume 3
survives into the prepared sound, instead of the channel default 1. -/
theorem play_keeps_source_values_witness :
    (preparedSound ⟨true, [], []⟩ (Channel.typed 0) ⟨⟨0⟩, none, false⟩
        ⟨⟨⟨3, 1, 0, none⟩⟩⟩).settings.volume = (3 : Rat) :=
  ((play_without_settings_keeps_source_values ⟨true, [], []⟩ (Channel.typed 0)
    ⟨⟨0⟩, none, false⟩ ⟨⟨⟨3, 1, 0, none⟩⟩⟩ ⟨0⟩).1 rfl).1

end BevyKira
